import Mathlib

set_option linter.unusedVariables false

/-
Verification development for the numpy type-inference module
(numba/type_inference/modules/numpymodule.py).

Modelling conventions:
  - A call-site argument is an `Option Ty`: `none` is the absent sentinel
    (Python None passed for an omitted argument), `some t` is an AST node
    whose already-inferred static type is `t` (the external access
    node.variable.type retrieves `t`; performed on the absent sentinel it
    raises AttributeError).
  - Fallible Python code is modelled in `Except Err`: `Except.error`
    is a raised exception, `Except.ok none` is a Python None result
    (the Unresolved sentinel), `Except.ok (some t)` is a resolved type.
  - Machine details of the external minivect/typesystem helpers
    (type constructors, promotion, the numpy namespace) are not under
    src/ and are modelled from the spec where noted.
-/

/-- Scalar numeric element kinds of the minivect type system: boolean,
integers with width and signedness, floats and complex numbers. -/
inductive Kind
  | bool_
  | int8
  | int16
  | int32
  | int64
  | uint8
  | uint16
  | uint32
  | uint64
  | float32
  | float64
  | complex64
  | complex128
  deriving DecidableEq, Repr

/-- Numeric-tower tier of a kind: boolean < integer < floating < complex. -/
def Kind.tier : Kind → Nat
  | .bool_ => 0
  | .int8 | .int16 | .int32 | .int64 | .uint8 | .uint16 | .uint32 | .uint64 => 1
  | .float32 | .float64 => 2
  | .complex64 | .complex128 => 3

/-- Bit width of a kind. -/
def Kind.width : Kind → Nat
  | .bool_ => 8
  | .int8 | .uint8 => 8
  | .int16 | .uint16 => 16
  | .int32 | .uint32 => 32
  | .int64 | .uint64 => 64
  | .float32 => 32
  | .float64 => 64
  | .complex64 => 64
  | .complex128 => 128

/-- Signedness of a kind (floats and complexes count as signed). -/
def Kind.signed : Kind → Bool
  | .uint8 | .uint16 | .uint32 | .uint64 => false
  | _ => true

/-- Modelled from the spec (4.1): mixed signed/unsigned integers of equal
width promote to the next wider signed integer, or to a float at the top
width, per the standard numeric casting table. -/
def nextWiderSigned : Nat → Kind
  | 8 => .int16
  | 16 => .int32
  | 32 => .int64
  | _ => .float64

/-- Modelled from the spec (4.1): the promotion join over element kinds.
The real promotion lives in minivect, outside src/: higher tier wins;
within a tier the wider width wins; equal-width mixed-sign integers go to
the next wider signed kind. -/
def promoteKind (a b : Kind) : Kind :=
  if a.tier < b.tier then b
  else if b.tier < a.tier then a
  else if a.width < b.width then b
  else if b.width < a.width then a
  else if a.signed = b.signed then a
  else nextWiderSigned a.width

/-- Static types handled by the numpy type-inference module: scalar kinds,
array types (element type plus rank, kept as an integer because the source
computes ranks with unchecked Python integer arithmetic), numpy dtype value
types, unresolved numpy attribute references, tuple and list types with an
optional static size, and the dynamic object type. -/
inductive Ty
  | scalar (k : Kind)
  | array (dtype : Ty) (ndim : Int)
  | npyDtype (k : Kind)
  | npyAttr (attr : String)
  | tuple (dtype : Ty) (size : Option Int)
  | list (dtype : Ty) (size : Option Int)
  | objectTy
  deriving DecidableEq, Repr

/-- Classification predicate is_array of the source type system. -/
def Ty.is_array : Ty → Bool
  | .array _ _ => true
  | _ => false

/-- Classification predicate is_tuple. -/
def Ty.is_tuple : Ty → Bool
  | .tuple _ _ => true
  | _ => false

/-- Classification predicate is_list. -/
def Ty.is_list : Ty → Bool
  | .list _ _ => true
  | _ => false

/-- Classification predicate is_object. -/
def Ty.is_object : Ty → Bool
  | .objectTy => true
  | _ => false

/-- Classification predicate is_numpy_dtype. -/
def Ty.is_numpy_dtype : Ty → Bool
  | .npyDtype _ => true
  | _ => false

/-- Classification predicate is_numpy_attribute. -/
def Ty.is_numpy_attribute : Ty → Bool
  | .npyAttr _ => true
  | _ => false

/-- Classification predicate is_int: scalar of integer tier. -/
def Ty.is_int : Ty → Bool
  | .scalar k => k.tier == 1
  | _ => false

/-- Classification predicate is_sized: tuple or list with a static size. -/
def Ty.is_sized : Ty → Bool
  | .tuple _ (some _) => true
  | .list _ (some _) => true
  | _ => false

/-- The universal dynamic fallback type object_ of the source. -/
def object_ : Ty := Ty.objectTy

/-- The platform index integer kind npy_intp (64-bit platform assumed). -/
def npy_intp : Kind := Kind.int64

/-- index_array_t = npy_intp[:], the rank-1 index array type (source line
defining index_array_t). -/
def index_array_t : Ty := Ty.array (Ty.scalar npy_intp) 1

/-- Python exception outcomes the module can produce. -/
inductive Err
  | attributeError
  | typeError
  deriving DecidableEq, Repr

/-- The .dtype attribute access on a type value: arrays, tuples and lists
carry their element type, a numpy dtype value type carries its element
kind; on other types the access raises (whether scalar minitypes carry a
dtype attribute is decided outside src/, and no resolver relies on it). -/
def Ty.dtypeAttr : Ty → Except Err Ty
  | .array d _ => Except.ok d
  | .tuple d _ => Except.ok d
  | .list d _ => Except.ok d
  | .npyDtype k => Except.ok (Ty.scalar k)
  | _ => Except.error Err.attributeError

/-- The .ndim attribute access on a type value: only arrays carry a rank. -/
def Ty.ndimAttr : Ty → Except Err Int
  | .array _ n => Except.ok n
  | _ => Except.error Err.attributeError

/-- The .size attribute access on a tuple or list type. Modelled from the
spec (3): sized tuples carry a known element count; the numeric size field
of an unsized tuple lives outside src/ and is modelled as -1 (no count). -/
def Ty.sizeAttr : Ty → Except Err Int
  | .tuple _ (some n) => Except.ok n
  | .tuple _ none => Except.ok (-1)
  | .list _ (some n) => Except.ok n
  | .list _ none => Except.ok (-1)
  | _ => Except.error Err.attributeError

/-- A member of the numpy namespace as seen by resolve_attribute_dtype:
a dtype instance, a class deriving from the numpy scalar base class
(carrying its element kind), some other class, or a value that is not a
class at all (a function, a module, a float constant...). -/
inductive NpMember
  | dtypeInst (k : Kind)
  | genericSub (k : Kind)
  | otherClass
  | nonClass
  deriving DecidableEq, Repr

/-- Modelled from the spec (9): the numpy namespace member lookup
getattr(np, attr, None) as a closed finite table; attribute names outside
the table are absent from the namespace and the lookup yields the Python
None default. -/
def npLookup : String → Option NpMember
  | "bool_" => some (.genericSub .bool_)
  | "int8" => some (.genericSub .int8)
  | "int16" => some (.genericSub .int16)
  | "int32" => some (.genericSub .int32)
  | "int64" => some (.genericSub .int64)
  | "uint8" => some (.genericSub .uint8)
  | "uint16" => some (.genericSub .uint16)
  | "uint32" => some (.genericSub .uint32)
  | "uint64" => some (.genericSub .uint64)
  | "float32" => some (.genericSub .float32)
  | "float64" => some (.genericSub .float64)
  | "single" => some (.genericSub .float32)
  | "double" => some (.genericSub .float64)
  | "intp" => some (.genericSub .int64)
  | "complex64" => some (.genericSub .complex64)
  | "complex128" => some (.genericSub .complex128)
  | "ndarray" => some .otherClass
  | "sum" => some .nonClass
  | "dot" => some .nonClass
  | "pi" => some .nonClass
  | _ => none

/-- Modelled from the spec: numpy dtype construction np.dtype(x) from a
minivect scalar type or an existing dtype; applied to anything else it
raises TypeError. -/
def np_dtype : Ty → Except Err Kind
  | .scalar k => Except.ok k
  | .npyDtype k => Except.ok k
  | _ => Except.error Err.typeError

/-- Modelled from the spec (4.1): context.promote_types of the external
compiler context; the promotion join lifted to types, scalars join by kind,
arrays join elementwise at the broadcast rank, the dynamic type absorbs. -/
def promote_types : Ty → Ty → Ty
  | Ty.scalar a, Ty.scalar b => Ty.scalar (promoteKind a b)
  | Ty.array (Ty.scalar a) m, Ty.array (Ty.scalar b) n =>
      Ty.array (Ty.scalar (promoteKind a b)) (max m n)
  | _, _ => object_

/-- Modelled from the spec (6): get_type retrieves the already-computed
static type of an argument node (the external node.variable.type access);
the absent sentinel has no such field, so the access raises. -/
def get_type : Option Ty → Except Err Ty
  | none => Except.error Err.attributeError
  | some t => Except.ok t

/-- resolve_attribute_dtype of the source: a numpy dtype value type is
returned unchanged; a numpy attribute reference is looked up with
getattr(np, attr, None), a dtype instance or a numpy scalar subclass gives
a dtype value type, any other class falls through to the implicit None,
and a non-class member, including the None default for a missing
attribute, makes the issubclass test raise TypeError. Any other input
falls through to the implicit None. The unused default parameter of the
source is dropped. -/
def resolve_attribute_dtype : Ty → Except Err (Option Ty)
  | Ty.npyDtype k => Except.ok (some (Ty.npyDtype k))
  | Ty.npyAttr attr =>
    match npLookup attr with
    | some (NpMember.dtypeInst k) => Except.ok (some (Ty.npyDtype k))
    | some (NpMember.genericSub k) => Except.ok (some (Ty.npyDtype k))
    | some NpMember.otherClass => Except.ok none
    | some NpMember.nonClass => Except.error Err.typeError
    | none => Except.error Err.typeError
  | _ => Except.ok none

/-- get_dtype of the source: an absent dtype argument takes the default
(turned into a dtype value type through np.dtype) or gives None when no
default is supplied; a present dtype argument goes through
resolve_attribute_dtype on its static type. -/
def get_dtype (dtype_arg : Option Ty) (default_dtype : Option Ty) :
    Except Err (Option Ty) :=
  match dtype_arg with
  | none =>
    match default_dtype with
    | none => Except.ok none
    | some d =>
      match np_dtype d with
      | Except.error e => Except.error e
      | Except.ok k => Except.ok (some (Ty.npyDtype k))
  | some t => resolve_attribute_dtype t

/-- The .dtype attribute access on a get_dtype result, as performed by
empty, arange and reduce_: on a dtype value type it yields the named
element kind as a scalar type; on the Python None result it raises
AttributeError. -/
def dtype_field : Option Ty → Except Err Ty
  | some (Ty.npyDtype k) => Except.ok (Ty.scalar k)
  | some _ => Except.error Err.attributeError
  | none => Except.error Err.attributeError

/-- promote_to_array of the source: promote a non-array type to a rank-0
array type. -/
def promote_to_array (dtype : Ty) : Ty :=
  if dtype.is_array then dtype else Ty.array dtype 0

/-- array_from_type of the source: arrays are returned unchanged; tuples
and lists coerce their element type to an array and add one to its rank
(the hop through array_from_object on the element type relies on the
external variable field and is modelled from the spec (4.3) as direct
recursion on the element type); a non-object scalar becomes a rank-0
array; everything else, including a tuple or list whose element does not
coerce to an array, falls through to the dynamic object type. -/
def array_from_type : Ty → Ty
  | Ty.array d n => Ty.array d n
  | Ty.tuple d _ =>
    match array_from_type d with
    | Ty.array e n => Ty.array e (n + 1)
    | _ => object_
  | Ty.list d _ =>
    match array_from_type d with
    | Ty.array e n => Ty.array e (n + 1)
    | _ => object_
  | Ty.objectTy => object_
  | Ty.scalar k => Ty.array (Ty.scalar k) 0
  | Ty.npyDtype k => Ty.array (Ty.npyDtype k) 0
  | Ty.npyAttr s => Ty.array (Ty.npyAttr s) 0

/-- array_from_object of the source: reads the static type of the node
(raising AttributeError on the absent sentinel) and coerces it. -/
def array_from_object (a : Option Ty) : Except Err Ty :=
  match get_type a with
  | Except.error e => Except.error e
  | Except.ok t => Except.ok (array_from_type t)

/-- The dtype resolver of the source (np.dtype calls): absent object gives
None, otherwise get_dtype on the object node with no default; the align
parameter is unused. -/
def dtype (obj align : Option Ty) : Except Err (Option Ty) :=
  match obj with
  | none => Except.ok none
  | some _ => get_dtype obj none

/-- empty_like of the source (also registered for zeros_like and
ones_like): absent a gives None; for an array-typed a, a present dtype
argument overrides the element kind when it resolves and otherwise the
array type is returned unchanged; with no dtype argument the element kind
of a is reused; a non-array a falls off the end of the function, giving
the implicit None. -/
def empty_like (a dtype order : Option Ty) : Except Err (Option Ty) :=
  match a with
  | none => Except.ok none
  | some type =>
    if type.is_array then
      match dtype with
      | some _ =>
        match get_dtype dtype none with
        | Except.error e => Except.error e
        | Except.ok none => Except.ok (some type)
        | Except.ok (some dtype_type) =>
          match dtype_field (some dtype_type) with
          | Except.error e => Except.error e
          | Except.ok d =>
            match type.ndimAttr with
            | Except.error e => Except.error e
            | Except.ok n => Except.ok (some (Ty.array d n))
      | none =>
        match type.dtypeAttr with
        | Except.error e => Except.error e
        | Except.ok d =>
          match type.ndimAttr with
          | Except.error e => Except.error e
          | Except.ok n => Except.ok (some (Ty.array d n))
    else Except.ok none

/-- empty of the source (also registered for zeros and ones): absent shape
gives None; the dtype argument defaults to float64; an integer shape gives
rank 1, a tuple or list shape gives its size field as the rank, any other
shape gives None; the element kind is read off the resolved dtype with a
.dtype access that raises when the dtype argument was present but did not
resolve. -/
def empty (shape dtype order : Option Ty) : Except Err (Option Ty) :=
  match shape with
  | none => Except.ok none
  | some shape_type =>
    match get_dtype dtype (some (Ty.scalar Kind.float64)) with
    | Except.error e => Except.error e
    | Except.ok d =>
      if shape_type.is_int then
        match dtype_field d with
        | Except.error e => Except.error e
        | Except.ok dt => Except.ok (some (Ty.array dt 1))
      else if shape_type.is_tuple || shape_type.is_list then
        match shape_type.sizeAttr with
        | Except.error e => Except.error e
        | Except.ok ndim =>
          match dtype_field d with
          | Except.error e => Except.error e
          | Except.ok dt => Except.ok (some (Ty.array dt ndim))
      else Except.ok none

/-- arange of the source: the dtype argument defaults to int64; a resolved
dtype gives a rank-1 array of its element kind; an unresolved dtype falls
through to the implicit None. -/
def arange (start stop step dtype : Option Ty) : Except Err (Option Ty) :=
  match get_dtype dtype (some (Ty.scalar Kind.int64)) with
  | Except.error e => Except.error e
  | Except.ok none => Except.ok none
  | Except.ok (some dtype_type) =>
    match dtype_field (some dtype_type) with
    | Except.error e => Except.error e
    | Except.ok elem => Except.ok (some (Ty.array elem 1))

/-- dot of the source: a present out argument is passed through as the
result type; otherwise both operand types are promoted to arrays, the
element kinds joined with promote_types and the rank is the sum of the
operand ranks minus 2. The context parameter of the source only supplies
promote_types and is dropped. -/
def dot (a b out : Option Ty) : Except Err (Option Ty) :=
  match out with
  | some t => Except.ok (some t)
  | none =>
    match get_type a with
    | Except.error e => Except.error e
    | Except.ok ta =>
      match get_type b with
      | Except.error e => Except.error e
      | Except.ok tb =>
        match promote_to_array ta, promote_to_array tb with
        | Ty.array le m, Ty.array re n =>
          Except.ok (some (Ty.array (promote_types le re) (m + n - 2)))
        | _, _ => Except.error Err.attributeError

/-- array of the source: the object argument is coerced through
array_from_object (raising AttributeError on the absent sentinel); a
present dtype argument replaces the element type with the raw static type
of the dtype node, keeping the rank (the copy with a dtype keyword on the
object fallback type is decided outside src/ and modelled as an attribute
failure; no claim exercises it). -/
def array (object dtype order subok : Option Ty) : Except Err (Option Ty) :=
  match array_from_object object with
  | Except.error e => Except.error e
  | Except.ok t =>
    match dtype with
    | none => Except.ok (some t)
    | some dtype_type =>
      match t with
      | Ty.array _ n => Except.ok (some (Ty.array dtype_type n))
      | _ => Except.error Err.attributeError

/-- The helper _nonzero of the source: an array type gives a sized tuple
of index arrays whose size is the rank; any other type gives the one-
argument tuple constructor, whose defaulted size lives outside src/ and is
modelled from the spec (4.4) as a singleton tuple. -/
def nonzeroType (type : Ty) : Ty :=
  match type with
  | Ty.array _ n => Ty.tuple index_array_t (some n)
  | _ => Ty.tuple index_array_t (some 1)

/-- nonzero of the source: coerces the argument with array_from_object and
applies the _nonzero helper. -/
def nonzero (a : Option Ty) : Except Err (Option Ty) :=
  match array_from_object a with
  | Except.error e => Except.error e
  | Except.ok t => Except.ok (some (nonzeroType t))

/-- where of the source (the name is reserved in Lean): with both x and y
absent it delegates to nonzero on the condition; otherwise both sides are
coerced with array_from_object, which raises AttributeError when exactly
one of them is absent, and the coerced types are joined with
promote_types. -/
def where_ (condition x y : Option Ty) : Except Err (Option Ty) :=
  if x.isNone && y.isNone then nonzero condition
  else
    match array_from_object x with
    | Except.error e => Except.error e
    | Except.ok xtype =>
      match array_from_object y with
      | Except.error e => Except.error e
      | Except.ok ytype => Except.ok (some (promote_types xtype ytype))

/-- reduce_ of the source (registered for sum and prod): a present out
argument is passed through; otherwise the type of a is read (raising on
the absent sentinel), its element type is taken as the dtype default, and
the resolved dtype is read with a .dtype access that raises when the
dtype argument was present but did not resolve. An absent axis gives the
bare scalar type; a sized tuple axis subtracts its size from the rank; an
integer axis subtracts 1; any other axis type gives the dynamic object
type. -/
def reduce_ (a axis dtype out : Option Ty) : Except Err (Option Ty) :=
  match out with
  | some t => Except.ok (some t)
  | none =>
    match get_type a with
    | Except.error e => Except.error e
    | Except.ok array_type =>
      match array_type.dtypeAttr with
      | Except.error e => Except.error e
      | Except.ok default_d =>
        match get_dtype dtype (some default_d) with
        | Except.error e => Except.error e
        | Except.ok d =>
          match dtype_field d with
          | Except.error e => Except.error e
          | Except.ok dtype_type =>
            match axis with
            | none => Except.ok (some dtype_type)
            | some axis_type =>
              if axis_type.is_tuple && axis_type.is_sized then
                match axis_type.sizeAttr with
                | Except.error e => Except.error e
                | Except.ok k =>
                  match array_type.ndimAttr with
                  | Except.error e => Except.error e
                  | Except.ok n => Except.ok (some (Ty.array dtype_type (n - k)))
              else if axis_type.is_int then
                match array_type.ndimAttr with
                | Except.error e => Except.error e
                | Except.ok n => Except.ok (some (Ty.array dtype_type (n - 1)))
              else Except.ok (some object_)

/-- Encoding of an optional dtype argument whose static type is a resolved
dtype value type: none is the absent sentinel, some k a node of dtype
value type k. -/
def dtypeArgOf : Option Kind → Option Ty
  | none => none
  | some k => some (Ty.npyDtype k)

/-- The element kind a reduction resolves: the dtype argument when one is
given, the source element kind otherwise. -/
def resolvedOf : Option Kind → Kind → Kind
  | none, e => e
  | some k, _ => k

/-- An attribute name absent from the numpy namespace table. -/
def missingAttrName : String := "definitely_not_a_numpy_member"

/-- An attribute name bound to a non-class member of the numpy namespace. -/
def nonClassAttrName : String := "sum"

/-- The float64 attribute name of the numpy namespace. -/
def float64AttrName : String := "float64"

/-- The ndarray attribute name of the numpy namespace: a class that is not
a numpy scalar subclass, so the issubclass test is False and dtype
resolution falls through to None. -/
def ndarrayAttrName : String := "ndarray"

/-- C1: the claim that every registered resolver is total over its declared
parameter set, in particular that where with exactly one of x and y absent
and array with object absent return a Type or Unresolved, is falsified by
the source: with y absent, where reaches array_from_object on the absent
sentinel and the variable access raises AttributeError; array with object
absent raises the same way. -/
theorem C1_resolver_totality_violated :
    where_ (some (Ty.scalar Kind.int64)) (some (Ty.scalar Kind.int64)) none
      = Except.error Err.attributeError
  ∧ array none none none none = Except.error Err.attributeError := ⟨rfl, rfl⟩

/-- C2: the claim that resolve_attribute_dtype and get_dtype never raise
for malformed input is falsified: for an attribute name absent from the
numpy namespace, getattr yields the None default and the issubclass test
raises TypeError; the same happens for an attribute bound to a non-class
member. -/
theorem C2_dtype_resolution_raises :
    resolve_attribute_dtype (Ty.npyAttr missingAttrName) = Except.error Err.typeError
  ∧ resolve_attribute_dtype (Ty.npyAttr nonClassAttrName) = Except.error Err.typeError
  ∧ get_dtype (some (Ty.npyAttr missingAttrName)) none = Except.error Err.typeError :=
  ⟨rfl, rfl, rfl⟩

/-- C3: resolving zeros (the empty resolver) on a shape argument of sized
two-element integer tuple type with dtype and order absent yields the
rank-2 array of float64 element kind. -/
theorem C3_zeros_tuple_shape :
    empty (some (Ty.tuple (Ty.scalar Kind.int64) (some 2))) none none
      = Except.ok (some (Ty.array (Ty.scalar Kind.float64) 2)) := rfl

/-- C4: for sum and prod with out absent and dtype absent or a resolved
dtype value, every array-typed input gives: bare scalar of the resolved
element kind for an absent axis, an array of rank R - 1 for an integer
axis, an array of rank R - k for a sized tuple axis of size k, and the
dynamic fallback, with no exception, for any other axis type. -/
theorem C4_reduce_axis_policy (e : Kind) (d : Option Kind) (R kk : Int)
    (u tother : Ty) (ik : Kind)
    (hik : ik.tier = 1)
    (ho1 : (tother.is_tuple && tother.is_sized) = false)
    (ho2 : tother.is_int = false) :
    reduce_ (some (Ty.array (Ty.scalar e) R)) none (dtypeArgOf d) none
      = Except.ok (some (Ty.scalar (resolvedOf d e)))
  ∧ reduce_ (some (Ty.array (Ty.scalar e) R)) (some (Ty.scalar ik)) (dtypeArgOf d) none
      = Except.ok (some (Ty.array (Ty.scalar (resolvedOf d e)) (R - 1)))
  ∧ reduce_ (some (Ty.array (Ty.scalar e) R)) (some (Ty.tuple u (some kk))) (dtypeArgOf d) none
      = Except.ok (some (Ty.array (Ty.scalar (resolvedOf d e)) (R - kk)))
  ∧ reduce_ (some (Ty.array (Ty.scalar e) R)) (some tother) (dtypeArgOf d) none
      = Except.ok (some object_) := by
  cases d with
  | none =>
    refine ⟨rfl, ?_, rfl, ?_⟩
    · simp [reduce_, get_type, Ty.dtypeAttr, get_dtype, np_dtype, dtype_field,
        Ty.is_int, Ty.is_tuple, Ty.is_sized, hik, Ty.ndimAttr, dtypeArgOf, resolvedOf]
    · simp [reduce_, get_type, Ty.dtypeAttr, get_dtype, np_dtype, dtype_field,
        ho1, ho2, dtypeArgOf, resolvedOf, object_]
  | some k =>
    refine ⟨rfl, ?_, rfl, ?_⟩
    · simp [reduce_, get_type, Ty.dtypeAttr, get_dtype, resolve_attribute_dtype,
        dtype_field, Ty.is_int, Ty.is_tuple, Ty.is_sized, hik, Ty.ndimAttr,
        dtypeArgOf, resolvedOf]
    · simp [reduce_, get_type, Ty.dtypeAttr, get_dtype, resolve_attribute_dtype,
        dtype_field, ho1, ho2, dtypeArgOf, resolvedOf, object_]

/-- C4 witness: the policy evaluated on a rank-2 float64 array with dtype
absent and each axis form. -/
theorem C4_reduce_axis_policy_witness :
    reduce_ (some (Ty.array (Ty.scalar Kind.float64) 2)) none none none
      = Except.ok (some (Ty.scalar Kind.float64))
  ∧ reduce_ (some (Ty.array (Ty.scalar Kind.float64) 2))
        (some (Ty.scalar Kind.int32)) none none
      = Except.ok (some (Ty.array (Ty.scalar Kind.float64) 1))
  ∧ reduce_ (some (Ty.array (Ty.scalar Kind.float64) 2))
        (some (Ty.tuple (Ty.scalar Kind.int32) (some 1))) none none
      = Except.ok (some (Ty.array (Ty.scalar Kind.float64) 1))
  ∧ reduce_ (some (Ty.array (Ty.scalar Kind.float64) 2))
        (some (Ty.scalar Kind.float32)) none none
      = Except.ok (some object_) :=
  C4_reduce_axis_policy Kind.float64 none 2 1 (Ty.scalar Kind.int32)
    (Ty.scalar Kind.float32) Kind.int32 rfl rfl rfl

/-- C5: dot with out present passes out through; otherwise, for operands
whose types promote to arrays of ranks m and n with scalar element kinds,
the result is the array of the joined element kind and rank m + n - 2. -/
theorem C5_dot_rank_arithmetic (ta tb tout : Ty) (ea eb : Kind) (m n : Int)
    (oa ob : Option Ty)
    (ha : promote_to_array ta = Ty.array (Ty.scalar ea) m)
    (hb : promote_to_array tb = Ty.array (Ty.scalar eb) n) :
    dot oa ob (some tout) = Except.ok (some tout)
  ∧ dot (some ta) (some tb) none
      = Except.ok (some (Ty.array (Ty.scalar (promoteKind ea eb)) (m + n - 2))) := by
  refine ⟨rfl, ?_⟩
  simp [dot, get_type, ha, hb, promote_types]

/-- C5 witness: dot of a rank-2 float64 array and a rank-1 float32 array
with out absent yields rank 2 + 1 - 2 = 1; a present out is passed
through. -/
theorem C5_dot_witness :
    dot none none (some (Ty.scalar Kind.int8)) = Except.ok (some (Ty.scalar Kind.int8))
  ∧ dot (some (Ty.array (Ty.scalar Kind.float64) 2))
        (some (Ty.array (Ty.scalar Kind.float32) 1)) none
      = Except.ok (some (Ty.array (Ty.scalar Kind.float64) 1)) :=
  C5_dot_rank_arithmetic (Ty.array (Ty.scalar Kind.float64) 2)
    (Ty.array (Ty.scalar Kind.float32) 1) (Ty.scalar Kind.int8)
    Kind.float64 Kind.float32 2 1 none none rfl rfl

/-- C6: the claim that a scalar argument to nonzero yields a 1-element
sized tuple is contradicted by the source: the scalar is first coerced to
a rank-0 array by array_from_object, so the array branch of the helper
fires and returns a sized tuple of 0 index-array elements; an array of
rank 3 does yield the 3-element tuple the claim states. -/
theorem C6_nonzero_scalar_divergence :
    nonzero (some (Ty.scalar Kind.int64))
      = Except.ok (some (Ty.tuple index_array_t (some 0)))
  ∧ nonzero (some (Ty.array (Ty.scalar Kind.float64) 3))
      = Except.ok (some (Ty.tuple index_array_t (some 3))) := ⟨rfl, rfl⟩

/-- C7 counterexample: empty_like on a non-array argument returns the
Python None (Unresolved), not the identity passthrough of the argument
type the claim states. -/
theorem C7_empty_like_counterexample :
    empty_like (some (Ty.scalar Kind.int64)) none none = Except.ok none
  ∧ empty_like (some (Ty.scalar Kind.int64)) none none
      ≠ Except.ok (some (Ty.scalar Kind.int64)) :=
  ⟨rfl, fun h => Option.noConfusion (Except.ok.inj h)⟩

/-- C7 amended: empty_like gives Unresolved for an absent a and also for a
non-array a (the function falls through); for an array a the rank is
preserved and the element kind is the resolved dtype argument when one is
present and resolves, and the element kind of a otherwise, the
present-but-unresolved dtype case returning the type of a unchanged. -/
theorem C7_empty_like_amended (el : Ty) (n : Int) (t tu tr : Ty) (kr : Kind)
    (dtn od : Option Ty)
    (ht : t.is_array = false)
    (hr : resolve_attribute_dtype tr = Except.ok (some (Ty.npyDtype kr)))
    (hu : resolve_attribute_dtype tu = Except.ok none) :
    empty_like none dtn od = Except.ok none
  ∧ empty_like (some t) dtn od = Except.ok none
  ∧ empty_like (some (Ty.array el n)) none od = Except.ok (some (Ty.array el n))
  ∧ empty_like (some (Ty.array el n)) (some tr) od
      = Except.ok (some (Ty.array (Ty.scalar kr) n))
  ∧ empty_like (some (Ty.array el n)) (some tu) od
      = Except.ok (some (Ty.array el n)) := by
  refine ⟨rfl, ?_, rfl, ?_, ?_⟩
  · simp [empty_like, ht]
  · simp [empty_like, get_dtype, hr, dtype_field, Ty.is_array, Ty.ndimAttr]
  · simp [empty_like, get_dtype, hu, Ty.is_array]

/-- C7 witness: the amended statement evaluated on a rank-4 float64 array,
an int8 scalar as the non-array input, a resolved int32 dtype argument and
an unresolvable int64-scalar dtype argument. -/
theorem C7_empty_like_witness :
    empty_like none none none = Except.ok none
  ∧ empty_like (some (Ty.scalar Kind.int8)) none none = Except.ok none
  ∧ empty_like (some (Ty.array (Ty.scalar Kind.float64) 4)) none none
      = Except.ok (some (Ty.array (Ty.scalar Kind.float64) 4))
  ∧ empty_like (some (Ty.array (Ty.scalar Kind.float64) 4))
        (some (Ty.npyDtype Kind.int32)) none
      = Except.ok (some (Ty.array (Ty.scalar Kind.int32) 4))
  ∧ empty_like (some (Ty.array (Ty.scalar Kind.float64) 4))
        (some (Ty.scalar Kind.int64)) none
      = Except.ok (some (Ty.array (Ty.scalar Kind.float64) 4)) :=
  C7_empty_like_amended (Ty.scalar Kind.float64) 4 (Ty.scalar Kind.int8)
    (Ty.scalar Kind.int64) (Ty.npyDtype Kind.int32) Kind.int32 none none
    rfl rfl rfl

/-- C8: arange with dtype absent yields the rank-1 int64 array; with a
dtype argument that resolves it yields the rank-1 array of the resolved
kind; with a dtype argument that does not resolve it yields Unresolved. -/
theorem C8_arange_dtype (s1 s2 s3 : Option Ty) (tr tu : Ty) (kr : Kind)
    (hr : resolve_attribute_dtype tr = Except.ok (some (Ty.npyDtype kr)))
    (hu : resolve_attribute_dtype tu = Except.ok none) :
    arange s1 s2 s3 none = Except.ok (some (Ty.array (Ty.scalar Kind.int64) 1))
  ∧ arange s1 s2 s3 (some tr) = Except.ok (some (Ty.array (Ty.scalar kr) 1))
  ∧ arange s1 s2 s3 (some tu) = Except.ok none := by
  refine ⟨rfl, ?_, ?_⟩
  · simp [arange, get_dtype, hr, dtype_field]
  · simp [arange, get_dtype, hu]

/-- C8 witness: arange with dtype absent, with the float64 namespace
attribute as dtype, and with the ndarray namespace attribute (a class that
is not a dtype) as dtype. -/
theorem C8_arange_witness :
    arange none none none none = Except.ok (some (Ty.array (Ty.scalar Kind.int64) 1))
  ∧ arange none none none (some (Ty.npyAttr float64AttrName))
      = Except.ok (some (Ty.array (Ty.scalar Kind.float64) 1))
  ∧ arange none none none (some (Ty.npyAttr ndarrayAttrName)) = Except.ok none :=
  C8_arange_dtype none none none (Ty.npyAttr float64AttrName)
    (Ty.npyAttr ndarrayAttrName) Kind.float64 rfl rfl

/-- C9 counterexample: sum of a rank-1 array with a sized tuple axis of
size 2 produces an ArrayType of rank -1, so the claim that every produced
ArrayType has non-negative rank, including for k greater than R, is
false. -/
theorem C9_reduce_rank_counterexample :
    reduce_ (some (Ty.array (Ty.scalar Kind.float64) 1))
        (some (Ty.tuple (Ty.scalar Kind.int64) (some 2))) none none
      = Except.ok (some (Ty.array (Ty.scalar Kind.float64) (-1)))
  ∧ ¬ (0 : Int) ≤ -1 := ⟨rfl, by decide⟩

/-- C9 amended: the rank of the array sum and prod return is non-negative
exactly when the axis removes at most the available dimensions: for a
sized tuple axis of size k it is R - k, non-negative when k is at most R,
and for an integer axis it is R - 1, non-negative when R is at least 1;
for k greater than R the code returns an ArrayType of negative rank. -/
theorem C9_reduce_rank_nonneg (e : Kind) (R kk : Int) (u : Ty) (ik : Kind)
    (hik : ik.tier = 1) (hkk : kk ≤ R) (hR1 : 1 ≤ R) :
    (reduce_ (some (Ty.array (Ty.scalar e) R)) (some (Ty.tuple u (some kk))) none none
       = Except.ok (some (Ty.array (Ty.scalar e) (R - kk))) ∧ 0 ≤ R - kk)
  ∧ (reduce_ (some (Ty.array (Ty.scalar e) R)) (some (Ty.scalar ik)) none none
       = Except.ok (some (Ty.array (Ty.scalar e) (R - 1))) ∧ 0 ≤ R - 1) := by
  refine ⟨⟨rfl, by omega⟩, ⟨?_, by omega⟩⟩
  simp [reduce_, get_type, Ty.dtypeAttr, get_dtype, np_dtype, dtype_field,
    Ty.is_int, Ty.is_tuple, Ty.is_sized, hik, Ty.ndimAttr]

/-- C9 witness: a rank-3 float64 array reduced over a sized 2-tuple axis
and over an integer axis, both ranks non-negative. -/
theorem C9_reduce_rank_witness :
    (reduce_ (some (Ty.array (Ty.scalar Kind.float64) 3))
        (some (Ty.tuple (Ty.scalar Kind.int64) (some 2))) none none
       = Except.ok (some (Ty.array (Ty.scalar Kind.float64) 1)) ∧ (0 : Int) ≤ 1)
  ∧ (reduce_ (some (Ty.array (Ty.scalar Kind.float64) 3))
        (some (Ty.scalar Kind.int32)) none none
       = Except.ok (some (Ty.array (Ty.scalar Kind.float64) 2)) ∧ (0 : Int) ≤ 2) :=
  C9_reduce_rank_nonneg Kind.float64 3 2 (Ty.scalar Kind.int64) Kind.int32
    rfl (by decide) (by decide)

/-- C10: array coercion is idempotent: applying array_from_type twice
gives the same result as applying it once, for every type. -/
theorem C10_array_from_type_idempotent (t : Ty) :
    array_from_type (array_from_type t) = array_from_type t := by
  cases t with
  | scalar k => rfl
  | array d n => rfl
  | npyDtype k => rfl
  | npyAttr s => rfl
  | objectTy => rfl
  | tuple d s => cases h : array_from_type d <;> simp [array_from_type, h, object_]
  | list d s => cases h : array_from_type d <;> simp [array_from_type, h, object_]
